import Mathlib

/-!
Shallow embedding of the `create-xeikit-app` CLI scaffolding core
(`src/cli/command.ts`, `src/cli/prompts.ts`, `src/types/result.ts`,
`src/utils/common.ts`, `src/utils/template.ts`, `src/utils/package-manager.ts`,
`src/utils/git.ts`, `src/utils/constants.ts`).

Modelling conventions:
* JS strings are Lean `String`s; a value of TS type `string | undefined`
  is an `Option String` (`none` = `undefined`).
* Throwing JS code and `process.exit` are modelled by a control type `Ctl`;
  a computation is a `Run α`: the list of observable effects (console
  messages, collaborator invocations) plus the control outcome.
* External collaborators (consola prompts, giget download, nypm install,
  the git subprocess) and ambient configuration (`process.cwd()`,
  `process.env.npm_config_user_agent`, `existsSync`, terminal colour
  support) are fields of an `Env` record; each fallible collaborator is an
  `Except JsError` value describing resolve/reject of its promise.
* `String.prototype.trim` is modelled on the ASCII whitespace subset.
-/

/-- JS `Error` object (only the `message` matters to this program). -/
structure JsError where
  message : String
deriving DecidableEq, Repr

/-- `Error.prototype.toString()`: `"Error: " + message`, or `"Error"` when the
message is empty. -/
def JsError.toDisplayString (e : JsError) : String :=
  if e.message = "" then "Error" else "Error: " ++ e.message

/-- A raw value coming back from a `consola.prompt` call, before the code's
`typeof` checks (models TS `unknown`). -/
inductive JsVal
  | bool (b : Bool)
  | str (s : String)
  | other
deriving DecidableEq, Repr

/-- ASCII whitespace, modelling the characters `String.prototype.trim` strips
that this CLI can realistically see. -/
def jsIsWs (c : Char) : Bool :=
  c = ' ' || c = '\t' || c = '\n' || c = '\r'

/-- `s.trim()` on the ASCII whitespace model. -/
def jsTrim (s : String) : String :=
  String.mk (((s.data.dropWhile jsIsWs).reverse.dropWhile jsIsWs).reverse)

/-- `s.split('/')[0]`: the first token of `s` before a `'/'` (the whole string
when no `'/'` occurs). -/
def firstSegmentBeforeSlash (s : String) : String :=
  String.mk (s.data.takeWhile (fun c => c ≠ '/'))

/-- Split a character list on `'/'` (helper for the POSIX path model). -/
def splitSlashAux (acc : List Char) : List Char → List (List Char)
  | [] => [acc.reverse]
  | c :: cs =>
    if c = '/' then acc.reverse :: splitSlashAux [] cs
    else splitSlashAux (c :: acc) cs

/-- Split a path string into `'/'`-separated segments. -/
def splitSlash (s : String) : List String :=
  (splitSlashAux [] s.data).map String.mk

/-- A POSIX path is absolute when it starts with `'/'`. -/
def isAbsolutePath (s : String) : Bool :=
  match s.data with
  | '/' :: _ => true
  | _ => false

/-- Collapse `.`/`..`/empty segments of an absolute path (the stack `acc` is
kept reversed; `..` at the root is dropped, as in Node's path normalization
of absolute paths). -/
def collapseSegs (acc : List String) : List String → List String
  | [] => acc.reverse
  | s :: rest =>
    if s = "" || s = "." then collapseSegs acc rest
    else if s = ".." then collapseSegs acc.tail rest
    else collapseSegs (s :: acc) rest

/-- Segments of an absolute path after normalization. -/
def absSegments (p : String) : List String :=
  collapseSegs [] (splitSlash p)

/-- Normalize an absolute POSIX path string. -/
def normalizeAbs (p : String) : String :=
  "/" ++ String.intercalate "/" (absSegments p)

/-- Node/pathe `resolve(cwd, dir)` (two-argument form), with `processCwd` the
ambient `process.cwd()` (assumed absolute): the rightmost absolute path wins,
relative components are joined on the right. -/
def resolveStr (processCwd cwd dir : String) : String :=
  if isAbsolutePath dir then normalizeAbs dir
  else if isAbsolutePath cwd then normalizeAbs (cwd ++ "/" ++ dir)
  else normalizeAbs (processCwd ++ "/" ++ cwd ++ "/" ++ dir)

/-- Drop the common leading segments of two segment lists. -/
def dropCommonSegs : List String → List String → List String × List String
  | a :: as_, b :: bs =>
    if a = b then dropCommonSegs as_ bs else (a :: as_, b :: bs)
  | as_, bs => (as_, bs)

/-- Node/pathe `relative(from, to)`: both sides are resolved, the common
leading segments are dropped, and the remainder of `from` becomes `..`
segments. Returns `""` when the two resolve to the same path. -/
def relativeStr (processCwd fromP toP : String) : String :=
  let fs := absSegments (resolveStr processCwd fromP "")
  let ts := absSegments (resolveStr processCwd toP "")
  let (fs', ts') := dropCommonSegs fs ts
  String.intercalate "/" (List.replicate fs'.length ".." ++ ts')

/-- `t` occurs as a contiguous substring of `s`. -/
def strContains (s t : String) : Prop :=
  t.data <:+: s.data

/-- Boolean form of `strContains` (JS `s.includes(t)`). -/
def strContainsB (s t : String) : Bool :=
  decide (t.data <:+: s.data)

instance (s t : String) : Decidable (strContains s t) := by
  unfold strContains
  infer_instance

/-- `consola/utils` `colors.cyan`: wraps in ANSI escapes when the terminal
supports colour, identity otherwise (picocolors-style auto-detection,
modelled by the flag). -/
def cyan (colorsOn : Bool) (s : String) : String :=
  if colorsOn then "\x1b[36m" ++ s ++ "\x1b[39m" else s

/-- `colors.dim`, same convention as `cyan`. -/
def dim (colorsOn : Bool) (s : String) : String :=
  if colorsOn then "\x1b[2m" ++ s ++ "\x1b[22m" else s

/-! ## `src/types/result.ts` -/

/-- `Result<T, E>`: tagged union of `{success: true, data}` / `{success: false, error}`. -/
inductive Result (α ε : Type)
  | Ok (data : α)
  | Err (error : ε)
deriving DecidableEq, Repr

/-- `isOk(result)`. -/
def isOk {α ε : Type} : Result α ε → Bool
  | .Ok _ => true
  | .Err _ => false

/-- `isErr(result)`. -/
def isErr {α ε : Type} (result : Result α ε) : Bool :=
  !(isOk result)

/-- `map(fn)(result)`. -/
def map {α β ε : Type} (fn : α → β) : Result α ε → Result β ε
  | .Ok data => .Ok (fn data)
  | .Err error => .Err error

/-- `mapErr(fn)(result)`. -/
def mapErr {α ε φ : Type} (fn : ε → φ) : Result α ε → Result α φ
  | .Ok data => .Ok data
  | .Err error => .Err (fn error)

/-- `chain(fn)(result)` (flat-map): `isOk(result) ? fn(result.data) : result`. -/
def chain {α β ε : Type} (fn : α → Result β ε) : Result α ε → Result β ε
  | .Ok data => fn data
  | .Err error => .Err error

/-- `unwrapOr(defaultValue)(result)`. -/
def unwrapOr {α ε : Type} (defaultValue : α) : Result α ε → α
  | .Ok data => data
  | .Err _ => defaultValue

/-! ## Effects, control flow and the run monad -/

/-- One observable effect of a run: a console message or the invocation of an
external collaborator (prompt, download, install, git subprocess). -/
inductive Eff
  | info (msg : String)
  | warn (msg : String)
  | errorLog (msg : String)
  | successLog (msg : String)
  | startLog (msg : String)
  | log (msg : String)
  | callPromptDir
  | callPromptTemplate
  | callPromptPM (initial : Option String)
  | callPromptInstall (initial : Option Bool)
  | callPromptGit
  | callDownload (templateName dest : String)
  | callInstall (dir pm : String)
  | callGitInit (dir : String)
deriving DecidableEq, Repr

/-- How a piece of JS control flow ends: normal value, `process.exit(code)`,
or a thrown error. -/
inductive Ctl (α : Type)
  | done (a : α)
  | exited (code : Nat)
  | thrown (e : JsError)
deriving DecidableEq, Repr

/-- A terminated computation: its emitted effects, in order, and its outcome. -/
structure Run (α : Type) where
  events : List Eff
  ctl : Ctl α
deriving DecidableEq, Repr

/-- Return without effects. -/
def Run.ret {α : Type} (a : α) : Run α := ⟨[], .done a⟩

/-- Sequencing: effects accumulate; `process.exit` and thrown errors
short-circuit (nothing after them runs). -/
def Run.bind {α β : Type} (r : Run α) (f : α → Run β) : Run β :=
  match r with
  | ⟨es, .done a⟩ => ⟨es ++ (f a).events, (f a).ctl⟩
  | ⟨es, .exited n⟩ => ⟨es, .exited n⟩
  | ⟨es, .thrown e⟩ => ⟨es, .thrown e⟩

/-- JS `try { r } catch (e) { h(e) }`: catches thrown errors only —
`process.exit` is not an exception and passes through. -/
def Run.tryCatch {α : Type} (r : Run α) (h : JsError → Run α) : Run α :=
  match r with
  | ⟨es, .thrown e⟩ => ⟨es ++ (h e).events, (h e).ctl⟩
  | other => other

theorem Run.bind_done {α β : Type} (es : List Eff) (a : α) (f : α → Run β) :
    Run.bind ⟨es, .done a⟩ f = ⟨es ++ (f a).events, (f a).ctl⟩ := rfl

theorem Run.bind_exited {α β : Type} (es : List Eff) (n : Nat) (f : α → Run β) :
    Run.bind ⟨es, .exited n⟩ f = ⟨es, .exited n⟩ := rfl

theorem Run.bind_thrown {α β : Type} (es : List Eff) (e : JsError) (f : α → Run β) :
    Run.bind ⟨es, .thrown e⟩ f = ⟨es, .thrown e⟩ := rfl

/-! ## The environment: collaborators and ambient configuration -/

/-- `DownloadTemplateResult` (giget): the fields this program reads. -/
structure DownloadTemplateResult where
  dir : String
  source : String
deriving DecidableEq, Repr

/-- External collaborators and ambient process state for one workflow run.
Each `Except JsError` field is the settled outcome of the corresponding
collaborator promise: `.ok` = resolve, `.error` = reject/throw. -/
structure Env where
  colorsOn : Bool
  processCwd : String
  fsExists : String → Bool
  userAgent : Option String
  promptDirResult : Except JsError String
  promptTemplateResult : Except JsError JsVal
  promptPMResult : Except JsError String
  promptInstallResult : Except JsError JsVal
  promptGitResult : Except JsError Bool
  download : String → String → Except JsError DownloadTemplateResult
  install : String → String → Except JsError Unit
  gitInit : String → Except JsError Unit

/-! ## `src/utils/constants.ts` -/

/-- `DEFAULT_TEMPLATE_NAME`. -/
def DEFAULT_TEMPLATE_NAME : String := "nuxt3"

/-- `PACKAGE_MANAGER_OPTIONS = Object.keys(PACKAGE_MANAGERS)`, in the object's
key order. -/
def PACKAGE_MANAGER_OPTIONS : List String := ["npm", "yarn", "pnpm", "bun", "deno"]

/-! ## `src/utils/common.ts` -/

/-- `createDirectoryExistsMessage(path)`: names the path relativized against
`process.cwd()` when the relative form is non-empty (JS `||` on the falsy
empty string), the absolute path otherwise. -/
def createDirectoryExistsMessage (env : Env) (path : String) : String :=
  let relativePath :=
    let r := relativeStr env.processCwd env.processCwd path
    if r = "" then path else r
  "The directory " ++ cyan env.colorsOn relativePath ++
    " already exists. Please choose a different directory."

/-- `checkDirectoryExists(path)`: wrapper around `existsSync`. -/
def checkDirectoryExists (env : Env) (path : String) : Bool :=
  env.fsExists path

/-- `handleError(error)`: logs `error.toString()` and exits with status 1. -/
def handleError (error : JsError) : Run Unit :=
  ⟨[Eff.errorLog error.toDisplayString], .exited 1⟩

/-- `validateDirectoryDoesNotExist(path)`. -/
def validateDirectoryDoesNotExist (env : Env) (path : String) : Result String String :=
  if checkDirectoryExists env path then Result.Err (createDirectoryExistsMessage env path)
  else Result.Ok path

/-- `verifyDirectoryDoesNotExist(path)`: logs the error and exits with
status 1 when the directory exists, otherwise continues silently. -/
def verifyDirectoryDoesNotExist (env : Env) (path : String) : Run Unit :=
  match validateDirectoryDoesNotExist env path with
  | .Err msg => ⟨[Eff.errorLog msg], .exited 1⟩
  | .Ok _ => Run.ret ()

/-- `resolvePath(cwd, dir)`: pathe `resolve`, with the ambient `process.cwd()`
from the environment. -/
def resolvePath (env : Env) (cwd dir : String) : String :=
  resolveStr env.processCwd cwd dir

/-! ## `src/cli/prompts.ts` -/

/-- `validateDirectoryArg(dirArg)`: `!dirArg || dirArg.trim() === ''` fails
with "Directory argument is empty"; otherwise succeeds with the trimmed
string. `none` models an `undefined` argument. -/
def validateDirectoryArg : Option String → Result String String
  | none => Result.Err "Directory argument is empty"
  | some dirArg =>
    if dirArg = "" || jsTrim dirArg = "" then Result.Err "Directory argument is empty"
    else Result.Ok (jsTrim dirArg)

/-- `promptForProjectDirectory()`: free-text prompt; rejection is caught and
returned as `Err`. -/
def promptForProjectDirectory (env : Env) : Run (Result String JsError) :=
  match env.promptDirResult with
  | .ok s => ⟨[Eff.callPromptDir], .done (Result.Ok s)⟩
  | .error e => ⟨[Eff.callPromptDir], .done (Result.Err e)⟩

/-- `getProjectDirectory(dirArg)`: valid argument wins; otherwise the prompt's
answer; a failed prompt exits the process with status 1. -/
def getProjectDirectory (env : Env) (dirArg : String) : Run String :=
  match validateDirectoryArg (some dirArg) with
  | .Ok data => Run.ret data
  | .Err _ =>
    Run.bind (promptForProjectDirectory env) fun promptResult =>
      match promptResult with
      | .Ok data => Run.ret data
      | .Err _ => ⟨[], .exited 1⟩

/-! ## `src/utils/template.ts` -/

/-- `validateTemplateArg(templateArg)`: fails on `undefined`, `""` or blank;
succeeds with the raw (untrimmed) string. -/
def validateTemplateArg : Option String → Result String String
  | none => Result.Err "Template argument is empty or undefined"
  | some templateArg =>
    if templateArg = "" || jsTrim templateArg = "" then
      Result.Err "Template argument is empty or undefined"
    else Result.Ok templateArg

/-- `validateTemplatePromptResult(template)`: non-strings fail; the empty
string falls back to `DEFAULT_TEMPLATE_NAME` (JS `template || default`). -/
def validateTemplatePromptResult : JsVal → Result String String
  | .str s => Result.Ok (if s = "" then DEFAULT_TEMPLATE_NAME else s)
  | _ => Result.Err "Please specify a template name."

/-- `promptForTemplate()`: select prompt; a non-string answer becomes an
`Err` with the validation message, rejection becomes an `Err` with the
cause. -/
def promptForTemplate (env : Env) : Run (Result String JsError) :=
  match env.promptTemplateResult with
  | .ok v =>
    match validateTemplatePromptResult v with
    | .Ok data => ⟨[Eff.callPromptTemplate], .done (Result.Ok data)⟩
    | .Err msg => ⟨[Eff.callPromptTemplate], .done (Result.Err ⟨msg⟩)⟩
  | .error e => ⟨[Eff.callPromptTemplate], .done (Result.Err e)⟩

/-- `selectTemplate(templateArg)`: valid argument wins; otherwise the prompt;
on prompt failure logs `error.message || 'Template selection cancelled'` and
exits with status 1. -/
def selectTemplate (env : Env) (templateArg : Option String) : Run String :=
  match validateTemplateArg templateArg with
  | .Ok data => Run.ret data
  | .Err _ =>
    Run.bind (promptForTemplate env) fun promptResult =>
      match promptResult with
      | .Ok data => Run.ret data
      | .Err e =>
        let msg := if e.message = "" then "Template selection cancelled" else e.message
        ⟨[Eff.errorLog msg], .exited 1⟩

/-- `downloadTemplateWithResult(templateName, downloadPath)`: calls the giget
collaborator and wraps resolve/reject into a `Result`. -/
def downloadTemplateWithResult (env : Env) (templateName downloadPath : String) :
    Run (Result DownloadTemplateResult JsError) :=
  match env.download templateName downloadPath with
  | .ok r => ⟨[Eff.callDownload templateName downloadPath], .done (Result.Ok r)⟩
  | .error e => ⟨[Eff.callDownload templateName downloadPath], .done (Result.Err e)⟩

/-- `downloadTemplateAndHandleErrors(templateName, downloadPath)`: returns the
download result, or `handleError` (log + exit 1) on failure. -/
def downloadTemplateAndHandleErrors (env : Env) (templateName downloadPath : String) :
    Run DownloadTemplateResult :=
  Run.bind (downloadTemplateWithResult env templateName downloadPath) fun result =>
    match result with
    | .Ok data => Run.ret data
    | .Err e => Run.bind (handleError e) fun _ => ⟨[], .exited 1⟩

/-! ## `src/utils/package-manager.ts` -/

/-- `parsePackageManagerFromUserAgent(userAgent)`: first token before `'/'`,
kept only when it is a supported package-manager name. -/
def parsePackageManagerFromUserAgent (userAgent : String) : Option String :=
  let name := firstSegmentBeforeSlash userAgent
  if PACKAGE_MANAGER_OPTIONS.contains name then some name else none

/-- `detectCurrentPackageManager()`: reads `process.env.npm_config_user_agent`;
`undefined` and `""` are falsy and yield `undefined`. -/
def detectCurrentPackageManager (env : Env) : Option String :=
  match env.userAgent with
  | none => none
  | some userAgent =>
    if userAgent = "" then none else parsePackageManagerFromUserAgent userAgent

/-- `validatePackageManagerArg(packageManagerArg)`. -/
def validatePackageManagerArg : Option String → Result String String
  | none => Result.Err "Package manager argument is empty"
  | some packageManagerArg =>
    if packageManagerArg = "" then Result.Err "Package manager argument is empty"
    else if !(PACKAGE_MANAGER_OPTIONS.contains packageManagerArg) then
      Result.Err ("Invalid package manager: " ++ packageManagerArg)
    else Result.Ok packageManagerArg

/-- `promptForPackageManager(currentPackageManager)`: select prompt seeded
with the detected manager as `initial`; rejection becomes `Err`. -/
def promptForPackageManager (env : Env) (currentPackageManager : Option String) :
    Run (Result String JsError) :=
  match env.promptPMResult with
  | .ok s => ⟨[Eff.callPromptPM currentPackageManager], .done (Result.Ok s)⟩
  | .error e => ⟨[Eff.callPromptPM currentPackageManager], .done (Result.Err e)⟩

/-- `selectPackageManager(packageManagerArg)`: valid argument wins outright;
otherwise detect the ambient manager and prompt; prompt failure exits 1. -/
def selectPackageManager (env : Env) (packageManagerArg : Option String) : Run String :=
  match validatePackageManagerArg packageManagerArg with
  | .Ok data => Run.ret data
  | .Err _ =>
    Run.bind (promptForPackageManager env (detectCurrentPackageManager env)) fun promptResult =>
      match promptResult with
      | .Ok data => Run.ret data
      | .Err _ => ⟨[], .exited 1⟩

/-- `validateInstallationPromptResult(shouldInstall)`: `typeof !== 'boolean'`
fails. -/
def validateInstallationPromptResult : JsVal → Result Bool String
  | .bool b => Result.Ok b
  | _ => Result.Err "Please specify whether to install dependencies."

/-- `promptForDependenciesInstallation(initial)`: confirm prompt seeded with
`initial`; non-boolean answers and rejections become `Err`. -/
def promptForDependenciesInstallation (env : Env) (initial : Option Bool) :
    Run (Result Bool JsError) :=
  match env.promptInstallResult with
  | .ok v =>
    match validateInstallationPromptResult v with
    | .Ok b => ⟨[Eff.callPromptInstall initial], .done (Result.Ok b)⟩
    | .Err msg => ⟨[Eff.callPromptInstall initial], .done (Result.Err ⟨msg⟩)⟩
  | .error e => ⟨[Eff.callPromptInstall initial], .done (Result.Err e)⟩

/-- `confirmDependenciesInstallation(install)`: always prompts (the `install`
argument only seeds the prompt default); on failure logs the message only in
the non-boolean case ("Please specify…") and exits with status 1. -/
def confirmDependenciesInstallation (env : Env) (install : Option Bool) : Run Bool :=
  Run.bind (promptForDependenciesInstallation env install) fun promptResult =>
    match promptResult with
    | .Ok data => Run.ret data
    | .Err e =>
      if strContainsB e.message "Please specify" then
        ⟨[Eff.errorLog e.message], .exited 1⟩
      else ⟨[], .exited 1⟩

/-- `installDependenciesWithResult(dir, packageManager)`: calls the nypm
collaborator scoped to `dir` with the chosen manager; wraps the outcome. -/
def installDependenciesWithResult (env : Env) (dir packageManager : String) :
    Run (Result Unit JsError) :=
  match env.install dir packageManager with
  | .ok _ => ⟨[Eff.callInstall dir packageManager], .done (Result.Ok ())⟩
  | .error e => ⟨[Eff.callInstall dir packageManager], .done (Result.Err e)⟩

/-- `installDependenciesIfRequested(shouldInstall, dir, packageManager)`:
no-op with an info message when `shouldInstall === false`; otherwise
(including `undefined`) installs, reporting success or delegating failure to
`handleError`. -/
def installDependenciesIfRequested (env : Env) (shouldInstall : Option Bool)
    (dir packageManager : String) : Run Unit :=
  if shouldInstall = some false then
    ⟨[Eff.info "Skipping dependency installation."], .done ()⟩
  else
    Run.bind ⟨[Eff.startLog "Installing dependencies..."], .done ()⟩ fun _ =>
      Run.bind (installDependenciesWithResult env dir packageManager) fun result =>
        match result with
        | .Ok _ => ⟨[Eff.successLog "Installation completed."], .done ()⟩
        | .Err e => handleError e

/-! ## `src/utils/git.ts` -/

/-- `validateGitInitParam(shouldInitParam)`: fails only on `undefined`; both
`true` and `false` are valid, already-decided answers. -/
def validateGitInitParam : Option Bool → Result Bool String
  | none => Result.Err "Git initialization parameter is undefined"
  | some b => Result.Ok b

/-- `promptForGitInitialization()`: yes/no confirm; rejection becomes `Err`. -/
def promptForGitInitialization (env : Env) : Run (Result Bool JsError) :=
  match env.promptGitResult with
  | .ok b => ⟨[Eff.callPromptGit], .done (Result.Ok b)⟩
  | .error e => ⟨[Eff.callPromptGit], .done (Result.Err e)⟩

/-- `determineGitInitialization(shouldInitParam)`: explicit `true`/`false`
short-circuits the prompt entirely. -/
def determineGitInitialization (env : Env) (shouldInitParam : Option Bool) :
    Run (Result Bool JsError) :=
  match validateGitInitParam shouldInitParam with
  | .Ok b => Run.ret (Result.Ok b)
  | .Err _ => promptForGitInitialization env

/-- `executeGitInit(dir)`: runs `git init <dir>` through the subprocess
collaborator; failure fails the Result, not the process. -/
def executeGitInit (env : Env) (dir : String) : Run (Result Unit JsError) :=
  match env.gitInit dir with
  | .ok _ => ⟨[Eff.callGitInit dir], .done (Result.Ok ())⟩
  | .error e => ⟨[Eff.callGitInit dir], .done (Result.Err e)⟩

/-- `initializeGitIfRequested(shouldInitParam, dir)`: prompt cancellation
exits 1; a `false` decision returns silently; a `true` decision announces
intent and runs `executeGitInit`, downgrading its failure to a warning. -/
def initializeGitIfRequested (env : Env) (shouldInitParam : Option Bool) (dir : String) :
    Run Unit :=
  Run.bind (determineGitInitialization env shouldInitParam) fun shouldInitResult =>
    match shouldInitResult with
    | .Err _ => ⟨[], .exited 1⟩
    | .Ok false => Run.ret ()
    | .Ok true =>
      Run.bind ⟨[Eff.info "Initializing git repository...\n"], .done ()⟩ fun _ =>
        Run.bind (executeGitInit env dir) fun gitInitResult =>
          match gitInitResult with
          | .Ok _ => Run.ret ()
          | .Err e =>
            ⟨[Eff.warn ("Failed to initialize git repository: " ++ e.message)], .done ()⟩

/-! ## `src/cli/command.ts` -/

/-- `ProjectConfig`. -/
structure ProjectConfig where
  projectDir : String
  templateDownloadPath : String
  cwd : String
deriving DecidableEq, Repr

/-- `createProjectConfig(cwd, projectDir)`. -/
def createProjectConfig (env : Env) (cwd projectDir : String) : ProjectConfig :=
  { projectDir := projectDir
    templateDownloadPath := resolvePath env cwd projectDir
    cwd := resolvePath env cwd "" }

/-- `displayProjectCreationInfo(config)`: info message naming the
(relativized-when-possible) creation location. -/
def displayProjectCreationInfo (env : Env) (config : ProjectConfig) : Run Unit :=
  let relativePath :=
    let r := relativeStr env.processCwd config.cwd config.templateDownloadPath
    if r = "" then config.templateDownloadPath else r
  ⟨[Eff.info ("Creating a new project in " ++ cyan env.colorsOn relativePath ++ ".")], .done ()⟩

/-- `FinalInstructions`: the record built by `createFinalInstructions`. -/
structure FinalInstructions where
  successMessage : String
  nextStepsTitle : String
  changeDirectory : String
  installCommand : Option String
  devCommand : String
  happyCoding : String
deriving DecidableEq, Repr

/-- `createFinalInstructions(projectDir, shouldInstall, selectedPackageManager,
templateSource)`: the install line is present exactly when `!shouldInstall`.
`colorsOn` is the ambient colour-support flag of `consola/utils`. -/
def createFinalInstructions (colorsOn : Bool) (projectDir : String) (shouldInstall : Bool)
    (selectedPackageManager templateSource : String) : FinalInstructions :=
  { successMessage :=
      "\n🎉 Starter project has been created with the `" ++ templateSource ++ "` template."
    nextStepsTitle := "\n🚀 Next steps:\n"
    changeDirectory := "cd " ++ cyan colorsOn projectDir
    installCommand :=
      if !shouldInstall then some (cyan colorsOn selectedPackageManager ++ " install")
      else none
    devCommand := cyan colorsOn selectedPackageManager ++ " run dev"
    happyCoding :=
      "\n🎮 Happy coding! " ++ dim colorsOn "(Press Ctrl+C to stop the dev server)" }

/-- `displayFinalInstructions(...)`: logs every instruction line, the install
command only when present. -/
def displayFinalInstructions (colorsOn : Bool) (projectDir : String) (shouldInstall : Bool)
    (selectedPackageManager templateSource : String) : Run Unit :=
  let instructions :=
    createFinalInstructions colorsOn projectDir shouldInstall selectedPackageManager templateSource
  let installLine :=
    match instructions.installCommand with
    | some cmd => [Eff.log cmd]
    | none => []
  ⟨[Eff.log instructions.successMessage, Eff.log instructions.nextStepsTitle,
    Eff.log instructions.changeDirectory] ++ installLine ++
    [Eff.log instructions.devCommand, Eff.log instructions.happyCoding], .done ()⟩

/-- `WorkflowArgs`: the argument record of `executeProjectCreationWorkflow`.
`template`, `install`, `gitInit` and `packageManager` are CLI flags without
defaults, so they can be `undefined` at runtime (citty leaves them unset);
`cwd` defaults to `"."` and `dir` to `""`. -/
structure WorkflowArgs where
  cwd : String
  dir : String
  template : Option String
  install : Option Bool
  gitInit : Option Bool
  packageManager : Option String
deriving DecidableEq, Repr

/-- `executeProjectCreationWorkflow(args)`: the five workflow steps in order,
inside one try/catch that wraps a thrown error as `Err` (process exits pass
through untouched). -/
def executeProjectCreationWorkflow (env : Env) (args : WorkflowArgs) :
    Run (Result Unit JsError) :=
  Run.tryCatch
    (Run.bind (getProjectDirectory env args.dir) fun projectDir =>
      let config := createProjectConfig env args.cwd projectDir
      Run.bind (displayProjectCreationInfo env config) fun _ =>
      Run.bind (verifyDirectoryDoesNotExist env config.templateDownloadPath) fun _ =>
      Run.bind (selectTemplate env args.template) fun templateName =>
      Run.bind (downloadTemplateAndHandleErrors env templateName config.templateDownloadPath)
        fun template =>
      Run.bind (selectPackageManager env args.packageManager) fun selectedPackageManager =>
      Run.bind (confirmDependenciesInstallation env args.install) fun shouldInstall =>
      Run.bind (installDependenciesIfRequested env (some shouldInstall) template.dir
        selectedPackageManager) fun _ =>
      Run.bind (initializeGitIfRequested env args.gitInit template.dir) fun _ =>
      Run.bind (displayFinalInstructions env.colorsOn projectDir shouldInstall
        selectedPackageManager template.source) fun _ =>
      Run.ret (Result.Ok ()))
    (fun error => Run.ret (Result.Err error))

/-! ## Concrete environments and arguments for witnesses -/

/-- A benign environment: no directory clash, every collaborator succeeds. -/
def baseEnv : Env :=
  { colorsOn := false
    processCwd := "/work"
    fsExists := fun _ => false
    userAgent := none
    promptDirResult := .ok "my-project"
    promptTemplateResult := .ok (.str "nuxt3")
    promptPMResult := .ok "npm"
    promptInstallResult := .ok (.bool true)
    promptGitResult := .ok true
    download := fun _ dest => .ok ⟨dest, "gh:xeikit/starter-templates"⟩
    install := fun _ _ => .ok ()
    gitInit := fun _ => .ok () }

/-- CLI arguments with every flag explicitly supplied. -/
def happyArgs : WorkflowArgs :=
  { cwd := "/work", dir := "my-app", template := some "nuxt3", install := some true,
    gitInit := some true, packageManager := some "npm" }

/-- Environment in which the target directory already exists. -/
def envClash : Env := { baseEnv with fsExists := fun _ => true }

/-- Environment whose ambient user agent names pnpm. -/
def envPnpm : Env :=
  { baseEnv with userAgent := some "pnpm/10.11.0 npm/? node/v22 darwin arm64" }

/-- Environment whose ambient user agent names an unsupported tool. -/
def envUnknownUA : Env := { baseEnv with userAgent := some "unknown/1.0.0" }

/-- Environment in which the template download collaborator throws
`Error("Template not found")`. -/
def envDownloadFail : Env :=
  { baseEnv with download := fun _ _ => .error ⟨"Template not found"⟩ }

/-- Environment in which the git subprocess rejects with
`Error("git not found")` while everything else succeeds. -/
def envGitFail : Env := { baseEnv with gitInit := fun _ => .error ⟨"git not found"⟩ }

/-- Effects that mark the invocation of template selection or of any later
workflow step (the observable prompt/collaborator calls). -/
def isPostDirectoryStepCall : Eff → Bool
  | .callPromptTemplate => true
  | .callDownload _ _ => true
  | .callPromptPM _ => true
  | .callPromptInstall _ => true
  | .callInstall _ _ => true
  | .callPromptGit => true
  | .callGitInit _ => true
  | _ => false

/-- Effects that mark the invocation of the dependency installer or of the
git-initialization machinery. -/
def isInstallOrGitCall : Eff → Bool
  | .callPromptPM _ => true
  | .callPromptInstall _ => true
  | .callInstall _ _ => true
  | .callPromptGit => true
  | .callGitInit _ => true
  | _ => false

/-- Effects that mark an invocation of the dependencies-confirmation prompt. -/
def isInstallPromptEv : Eff → Bool
  | .callPromptInstall _ => true
  | _ => false

/-! ## Step-evaluation lemmas -/

theorem Run.tryCatch_done {α : Type} (es : List Eff) (a : α) (h : JsError → Run α) :
    Run.tryCatch ⟨es, .done a⟩ h = ⟨es, .done a⟩ := rfl

theorem Run.tryCatch_exited {α : Type} (es : List Eff) (n : Nat) (h : JsError → Run α) :
    Run.tryCatch ⟨es, .exited n⟩ h = ⟨es, .exited n⟩ := rfl

theorem Run.bind_ret {α β : Type} (a : α) (f : α → Run β) :
    Run.bind (Run.ret a) f = f a := rfl

theorem jsTrim_empty : jsTrim "" = "" := rfl

/-- A non-blank directory argument is taken as-is (trimmed), no prompt. -/
theorem getProjectDirectory_arg (env : Env) (s : String) (h : jsTrim s ≠ "") :
    getProjectDirectory env s = Run.ret (jsTrim s) := by
  have hs : s ≠ "" := by
    intro he
    exact h (he ▸ jsTrim_empty)
  unfold getProjectDirectory validateDirectoryArg
  simp [hs, h]

/-- A non-blank template argument is taken as-is (untrimmed), no prompt. -/
theorem selectTemplate_arg (env : Env) (t : String) (h : jsTrim t ≠ "") :
    selectTemplate env (some t) = Run.ret t := by
  have ht : t ≠ "" := by
    intro he
    exact h (he ▸ jsTrim_empty)
  unfold selectTemplate validateTemplateArg
  simp [ht, h]

/-- A supported package-manager argument wins outright, no prompt. -/
theorem selectPackageManager_arg (env : Env) (p : String)
    (h : p ∈ PACKAGE_MANAGER_OPTIONS) :
    selectPackageManager env (some p) = Run.ret p := by
  have hp : p ≠ "" := by
    intro he
    subst he
    simp [PACKAGE_MANAGER_OPTIONS] at h
  unfold selectPackageManager validatePackageManagerArg
  simp [hp, h]

/-- A vacant target path passes the existence gate silently. -/
theorem verifyDirectoryDoesNotExist_free (env : Env) (path : String)
    (h : env.fsExists path = false) :
    verifyDirectoryDoesNotExist env path = Run.ret () := by
  unfold verifyDirectoryDoesNotExist validateDirectoryDoesNotExist checkDirectoryExists
  simp [h]

/-- An occupied target path logs the exists-message and exits 1. -/
theorem verifyDirectoryDoesNotExist_clash (env : Env) (path : String)
    (h : env.fsExists path = true) :
    verifyDirectoryDoesNotExist env path =
      ⟨[Eff.errorLog (createDirectoryExistsMessage env path)], .exited 1⟩ := by
  unfold verifyDirectoryDoesNotExist validateDirectoryDoesNotExist checkDirectoryExists
  simp [h]

/-- Successful download: one collaborator call, the result is returned. -/
theorem downloadTemplateAndHandleErrors_ok (env : Env) (t path : String)
    (r : DownloadTemplateResult) (h : env.download t path = .ok r) :
    downloadTemplateAndHandleErrors env t path = ⟨[Eff.callDownload t path], .done r⟩ := by
  unfold downloadTemplateAndHandleErrors downloadTemplateWithResult
  rw [h]
  rfl

/-- Failed download: the collaborator call, then `handleError` (log + exit 1). -/
theorem downloadTemplateAndHandleErrors_err (env : Env) (t path : String)
    (e : JsError) (h : env.download t path = .error e) :
    downloadTemplateAndHandleErrors env t path =
      ⟨[Eff.callDownload t path, Eff.errorLog e.toDisplayString], .exited 1⟩ := by
  unfold downloadTemplateAndHandleErrors downloadTemplateWithResult handleError
  rw [h]
  rfl

/-- A boolean confirm answer: one prompt call seeded with `install`, the
answer is returned. -/
theorem confirmDependenciesInstallation_bool (env : Env) (install : Option Bool) (v : Bool)
    (h : env.promptInstallResult = .ok (.bool v)) :
    confirmDependenciesInstallation env install =
      ⟨[Eff.callPromptInstall install], .done v⟩ := by
  unfold confirmDependenciesInstallation promptForDependenciesInstallation
  rw [h]
  rfl

/-- Requested install with a succeeding installer. -/
theorem installDependenciesIfRequested_ok (env : Env) (dir pm : String)
    (h : env.install dir pm = .ok ()) :
    installDependenciesIfRequested env (some true) dir pm =
      ⟨[Eff.startLog "Installing dependencies...", Eff.callInstall dir pm,
        Eff.successLog "Installation completed."], .done ()⟩ := by
  unfold installDependenciesIfRequested installDependenciesWithResult
  rw [show env.install dir pm = .ok () from h]
  rfl

/-- Explicit `gitInit := true` with a failing git subprocess: announce, call,
warn — and return normally. -/
theorem initializeGitIfRequested_fail (env : Env) (dir : String) (e : JsError)
    (h : env.gitInit dir = .error e) :
    initializeGitIfRequested env (some true) dir =
      ⟨[Eff.info "Initializing git repository...\n", Eff.callGitInit dir,
        Eff.warn ("Failed to initialize git repository: " ++ e.message)], .done ()⟩ := by
  unfold initializeGitIfRequested determineGitInitialization validateGitInitParam executeGitInit
  rw [h]
  rfl

/-! ## Substring helpers -/

theorem strEqOfData {s t : String} (h : s.data = t.data) : s = t := by
  cases s
  cases t
  simp only [] at h
  exact congrArg String.mk h

theorem strContains_append (a t b : String) : strContains (a ++ t ++ b) t := by
  unfold strContains
  rw [show (a ++ t ++ b).data = a.data ++ t.data ++ b.data by simp [String.data_append]]
  exact ⟨a.data, b.data, rfl⟩

theorem strContains_cyan (c : Bool) (a x b : String) : strContains (a ++ cyan c x ++ b) x := by
  cases c
  · simpa [cyan] using strContains_append a x b
  · have h := strContains_append (a ++ "\x1b[36m") x ("\x1b[39m" ++ b)
    unfold strContains at h ⊢
    simp only [cyan, Bool.true_eq, if_pos, String.data_append, List.append_assoc] at h ⊢
    simpa using h

/-! ## Scenario traces -/

/-- Scenario trace: blank-free directory argument, target already on disk —
the run is one info line, the exists-error line, then exit 1. -/
theorem workflow_trace_dirExists (env : Env) (args : WorkflowArgs)
    (hdir : jsTrim args.dir ≠ "")
    (hfs : env.fsExists (resolvePath env args.cwd (jsTrim args.dir)) = true) :
    executeProjectCreationWorkflow env args =
      ⟨(displayProjectCreationInfo env (createProjectConfig env args.cwd (jsTrim args.dir))).events
        ++
        [Eff.errorLog
          (createDirectoryExistsMessage env (resolvePath env args.cwd (jsTrim args.dir)))],
       .exited 1⟩ := by
  unfold executeProjectCreationWorkflow
  rw [getProjectDirectory_arg env args.dir hdir, Run.bind_ret]
  simp only [createProjectConfig, displayProjectCreationInfo]
  rw [verifyDirectoryDoesNotExist_clash env _ hfs]
  simp only [Run.bind_done, Run.bind_exited, Run.tryCatch_exited, List.append_nil,
    List.cons_append, List.nil_append]

/-- Sequencing after the creation-info message (which always succeeds). -/
theorem Run.bind_display (env : Env) (c : ProjectConfig) (f : Unit → Run α) :
    Run.bind (displayProjectCreationInfo env c) f =
      ⟨(displayProjectCreationInfo env c).events ++ (f ()).events, (f ()).ctl⟩ := rfl

/-- Scenario trace: everything up to template selection succeeds, the
download collaborator throws — the run logs the error and exits 1; the
package-manager, install and git stages never start. -/
theorem workflow_trace_downloadErr (env : Env) (args : WorkflowArgs) (t : String) (e : JsError)
    (hdir : jsTrim args.dir ≠ "")
    (hfs : env.fsExists (resolvePath env args.cwd (jsTrim args.dir)) = false)
    (ht : args.template = some t) (htv : jsTrim t ≠ "")
    (hdl : env.download t (resolvePath env args.cwd (jsTrim args.dir)) = .error e) :
    executeProjectCreationWorkflow env args =
      ⟨(displayProjectCreationInfo env (createProjectConfig env args.cwd (jsTrim args.dir))).events
        ++ [Eff.callDownload t (resolvePath env args.cwd (jsTrim args.dir)),
            Eff.errorLog e.toDisplayString],
       .exited 1⟩ := by
  unfold executeProjectCreationWorkflow
  rw [getProjectDirectory_arg env args.dir hdir, Run.bind_ret, ht]
  simp only [Run.bind_display]
  rw [show (createProjectConfig env args.cwd (jsTrim args.dir)).templateDownloadPath =
      resolvePath env args.cwd (jsTrim args.dir) from rfl]
  rw [verifyDirectoryDoesNotExist_free env _ hfs, Run.bind_ret,
    selectTemplate_arg env t htv, Run.bind_ret,
    downloadTemplateAndHandleErrors_err env t _ e hdl]
  simp only [Run.bind_exited, Run.tryCatch_exited]

/-- Sequencing after the final-instructions display (which always succeeds). -/
theorem Run.bind_displayFinal (c : Bool) (pd : String) (b : Bool) (pm ts : String)
    (f : Unit → Run α) :
    Run.bind (displayFinalInstructions c pd b pm ts) f =
      ⟨(displayFinalInstructions c pd b pm ts).events ++ (f ()).events, (f ()).ctl⟩ := rfl

/-- Git step when the decision resolved to `true` (explicitly or via the
prompt, with `gevs` the prompt's trace) and the subprocess fails: announce,
call, warn, return normally. -/
theorem initializeGitIfRequested_decTrue_fail (env : Env) (param : Option Bool) (dir : String)
    (e : JsError) (gevs : List Eff)
    (hdec : determineGitInitialization env param = ⟨gevs, .done (Result.Ok true)⟩)
    (h : env.gitInit dir = .error e) :
    initializeGitIfRequested env param dir =
      ⟨gevs ++ [Eff.info "Initializing git repository...\n", Eff.callGitInit dir,
        Eff.warn ("Failed to initialize git repository: " ++ e.message)], .done ()⟩ := by
  unfold initializeGitIfRequested executeGitInit
  rw [hdec, h]
  rfl

/-- Scenario trace: every step up to and including installation succeeds, the
git decision is `true`, the git subprocess fails — the run warns and still
finishes with `Ok(undefined)` after printing the final instructions. -/
theorem workflow_trace_gitFail (env : Env) (args : WorkflowArgs) (t p : String)
    (td ts : String) (e : JsError) (gevs : List Eff)
    (hdir : jsTrim args.dir ≠ "")
    (hfs : env.fsExists (resolvePath env args.cwd (jsTrim args.dir)) = false)
    (ht : args.template = some t) (htv : jsTrim t ≠ "")
    (hdl : env.download t (resolvePath env args.cwd (jsTrim args.dir)) = .ok ⟨td, ts⟩)
    (hpm : args.packageManager = some p) (hp : p ∈ PACKAGE_MANAGER_OPTIONS)
    (hconf : env.promptInstallResult = .ok (.bool true))
    (hinst : env.install td p = .ok ())
    (hdec : determineGitInitialization env args.gitInit = ⟨gevs, .done (Result.Ok true)⟩)
    (hgit : env.gitInit td = .error e) :
    executeProjectCreationWorkflow env args =
      ⟨(displayProjectCreationInfo env (createProjectConfig env args.cwd (jsTrim args.dir))).events
        ++ [Eff.callDownload t (resolvePath env args.cwd (jsTrim args.dir)),
            Eff.callPromptInstall args.install,
            Eff.startLog "Installing dependencies...", Eff.callInstall td p,
            Eff.successLog "Installation completed."]
        ++ gevs
        ++ [Eff.info "Initializing git repository...\n", Eff.callGitInit td,
            Eff.warn ("Failed to initialize git repository: " ++ e.message)]
        ++ (displayFinalInstructions env.colorsOn (jsTrim args.dir) true p ts).events,
       .done (Result.Ok ())⟩ := by
  unfold executeProjectCreationWorkflow
  rw [getProjectDirectory_arg env args.dir hdir, Run.bind_ret, ht, hpm]
  simp only [Run.bind_display]
  rw [show (createProjectConfig env args.cwd (jsTrim args.dir)).templateDownloadPath =
      resolvePath env args.cwd (jsTrim args.dir) from rfl]
  rw [verifyDirectoryDoesNotExist_free env _ hfs, Run.bind_ret,
    selectTemplate_arg env t htv, Run.bind_ret,
    downloadTemplateAndHandleErrors_ok env t _ ⟨td, ts⟩ hdl]
  simp only [Run.bind_done]
  rw [selectPackageManager_arg env p hp, Run.bind_ret,
    confirmDependenciesInstallation_bool env args.install true hconf]
  simp only [Run.bind_done]
  rw [installDependenciesIfRequested_ok env td p hinst]
  simp only [Run.bind_done]
  rw [initializeGitIfRequested_decTrue_fail env args.gitInit td e gevs hdec hgit]
  simp only [Run.bind_done, Run.bind_ret, Run.bind_displayFinal, Run.ret, Run.tryCatch_done,
    List.append_assoc, List.cons_append, List.nil_append, List.append_nil]

theorem strContains_right (a t : String) : strContains (a ++ t) t := by
  unfold strContains
  exact ⟨a.data, [], by simp [String.data_append]⟩

theorem strContains_append_right (a b t : String) (h : strContains b t) :
    strContains (a ++ b) t := by
  obtain ⟨p, q, hpq⟩ := h
  refine ⟨a.data ++ p, q, ?_⟩
  rw [String.data_append, ← hpq]
  simp [List.append_assoc]

/-! ## Claim theorems -/

/-- C5: for every non-empty, non-whitespace-only string `s`,
`validateDirectoryArg(s)` succeeds with `s.trim()`; for the empty string,
all-whitespace strings and `undefined` it fails with the error message
"Directory argument is empty". -/
theorem claimC5_validateDirectoryArg (s : String) :
    (jsTrim s ≠ "" → validateDirectoryArg (some s) = Result.Ok (jsTrim s)) ∧
    (jsTrim s = "" → validateDirectoryArg (some s) = Result.Err "Directory argument is empty") ∧
    validateDirectoryArg none = Result.Err "Directory argument is empty" := by
  refine ⟨fun h => ?_, fun h => ?_, rfl⟩
  · have hs : s ≠ "" := fun he => h (he ▸ jsTrim_empty)
    unfold validateDirectoryArg
    simp [hs, h]
  · unfold validateDirectoryArg
    simp [h]

/-- C5 witness: a padded directory argument is accepted trimmed; a
whitespace-only one is rejected. -/
theorem claimC5_witness :
    validateDirectoryArg (some "  my-app  ") = Result.Ok "my-app" ∧
    validateDirectoryArg (some "   ") = Result.Err "Directory argument is empty" :=
  ⟨(claimC5_validateDirectoryArg "  my-app  ").1 (by decide),
   (claimC5_validateDirectoryArg "   ").2.1 (by decide)⟩

/-- C6: `detectCurrentPackageManager` takes the first token of the ambient
user-agent hint before `'/'` and returns it exactly when it is one of
npm/yarn/pnpm/bun/deno, `undefined` otherwise (including an absent hint);
in particular `"pnpm"` for the pnpm hint and `undefined` for `"unknown/1.0.0"`. -/
theorem claimC6_detectCurrentPackageManager (env : Env) :
    (env.userAgent = none → detectCurrentPackageManager env = none) ∧
    (∀ ua, env.userAgent = some ua →
      detectCurrentPackageManager env =
        (if firstSegmentBeforeSlash ua ∈ PACKAGE_MANAGER_OPTIONS then
          some (firstSegmentBeforeSlash ua) else none)) ∧
    (env.userAgent = some "pnpm/10.11.0 npm/? node/v22 darwin arm64" →
      detectCurrentPackageManager env = some "pnpm") ∧
    (env.userAgent = some "unknown/1.0.0" → detectCurrentPackageManager env = none) := by
  refine ⟨fun h => ?_, fun ua h => ?_, fun h => ?_, fun h => ?_⟩
  · simp [detectCurrentPackageManager, h]
  · by_cases hu : ua = ""
    · subst hu
      simp [detectCurrentPackageManager, h, firstSegmentBeforeSlash, PACKAGE_MANAGER_OPTIONS]
    · simp [detectCurrentPackageManager, h, hu, parsePackageManagerFromUserAgent]
  · simp [detectCurrentPackageManager, h]
    decide
  · simp [detectCurrentPackageManager, h]
    decide

/-- C6 witness: the two concrete hints of the claim. -/
theorem claimC6_witness :
    detectCurrentPackageManager envPnpm = some "pnpm" ∧
    detectCurrentPackageManager envUnknownUA = none :=
  ⟨(claimC6_detectCurrentPackageManager envPnpm).2.2.1 rfl,
   (claimC6_detectCurrentPackageManager envUnknownUA).2.2.2 rfl⟩

/-- C7: `validatePackageManagerArg` accepts exactly the supported managers,
rejects absent/empty input with "Package manager argument is empty", and
rejects any other string with a message containing the rejected value. -/
theorem claimC7_validatePackageManagerArg (s : String) :
    (s ∈ PACKAGE_MANAGER_OPTIONS → validatePackageManagerArg (some s) = Result.Ok s) ∧
    validatePackageManagerArg none = Result.Err "Package manager argument is empty" ∧
    validatePackageManagerArg (some "") = Result.Err "Package manager argument is empty" ∧
    (s ∉ PACKAGE_MANAGER_OPTIONS → s ≠ "" →
      validatePackageManagerArg (some s) = Result.Err ("Invalid package manager: " ++ s) ∧
      strContains ("Invalid package manager: " ++ s) s) := by
  refine ⟨fun h => ?_, rfl, rfl, fun h hs => ⟨?_, strContains_right _ s⟩⟩
  · have hs : s ≠ "" := by
      rintro rfl
      simp [PACKAGE_MANAGER_OPTIONS] at h
    unfold validatePackageManagerArg
    simp [hs, h]
  · unfold validatePackageManagerArg
    simp [hs, h]

/-- C7 witness: a supported and an unsupported manager name. -/
theorem claimC7_witness :
    validatePackageManagerArg (some "pnpm") = Result.Ok "pnpm" ∧
    validatePackageManagerArg (some "cargo") = Result.Err ("Invalid package manager: " ++ "cargo") :=
  ⟨(claimC7_validatePackageManagerArg "pnpm").1 (by decide),
   ((claimC7_validatePackageManagerArg "cargo").2.2.2 (by decide) (by decide)).1⟩

/-- C8: short-circuit law — `chain(f)(Err(e))` equals `Err(e)` for every `f`,
and the result does not depend on `f` at all (the shallow rendering of
"`f` is never invoked": any two functions give the same run). -/
theorem claimC8_chain_short_circuit {α β ε : Type} (e : ε) (f g : α → Result β ε) :
    chain f (Result.Err e) = Result.Err e ∧
    chain f (Result.Err e) = chain g (Result.Err e) :=
  ⟨rfl, rfl⟩

/-- C4: `installDependenciesIfRequested` invokes the installer scoped to
`dir` with the chosen manager exactly when `shouldInstall` is not `false`;
for `false` it is an informational no-op, and `undefined` installs. -/
theorem claimC4_installDependenciesIfRequested (env : Env) (shouldInstall : Option Bool)
    (dir pm : String) :
    (Eff.callInstall dir pm ∈ (installDependenciesIfRequested env shouldInstall dir pm).events
      ↔ shouldInstall ≠ some false) ∧
    (shouldInstall = some false →
      installDependenciesIfRequested env shouldInstall dir pm =
        ⟨[Eff.info "Skipping dependency installation."], Ctl.done ()⟩) := by
  by_cases hA : shouldInstall = some false
  · subst hA
    refine ⟨?_, fun _ => rfl⟩
    simp [installDependenciesIfRequested]
  · refine ⟨?_, fun hc => absurd hc hA⟩
    unfold installDependenciesIfRequested installDependenciesWithResult handleError
    rcases hi : env.install dir pm with e | u <;>
      simp [hA, hi, Run.bind_done, Run.bind_exited]

/-- C4 witness: `undefined` installs; `false` is the informational no-op. -/
theorem claimC4_witness :
    Eff.callInstall "/work/my-app" "npm" ∈
      (installDependenciesIfRequested baseEnv none "/work/my-app" "npm").events ∧
    installDependenciesIfRequested baseEnv (some false) "/work/my-app" "npm" =
      ⟨[Eff.info "Skipping dependency installation."], Ctl.done ()⟩ :=
  ⟨(claimC4_installDependenciesIfRequested baseEnv none "/work/my-app" "npm").1.mpr (by decide),
   (claimC4_installDependenciesIfRequested baseEnv (some false) "/work/my-app" "npm").2 rfl⟩

/-- C9: the final instructions contain an install-command line
(`<packageManager> install`) exactly when installation was skipped
(`shouldInstall = false`); with `shouldInstall = true` the line is `null`
and only the change-directory and dev-run commands (plus messages) are
displayed. -/
theorem claimC9_createFinalInstructions (colorsOn : Bool) (projectDir pm src : String) :
    (∀ b, ((createFinalInstructions colorsOn projectDir b pm src).installCommand).isSome = !b) ∧
    (createFinalInstructions colorsOn projectDir true pm src).installCommand = none ∧
    ((createFinalInstructions false projectDir false pm src).installCommand =
        some (pm ++ " install") ∧
      strContains (pm ++ " install") (pm ++ " install")) ∧
    (displayFinalInstructions colorsOn projectDir true pm src).events =
      [Eff.log (createFinalInstructions colorsOn projectDir true pm src).successMessage,
       Eff.log (createFinalInstructions colorsOn projectDir true pm src).nextStepsTitle,
       Eff.log (createFinalInstructions colorsOn projectDir true pm src).changeDirectory,
       Eff.log (createFinalInstructions colorsOn projectDir true pm src).devCommand,
       Eff.log (createFinalInstructions colorsOn projectDir true pm src).happyCoding] := by
  refine ⟨fun b => ?_, rfl, ⟨rfl, ⟨[], [], by simp⟩⟩, rfl⟩
  cases b <;> rfl

/-- C3: when the resolved target path already exists, the workflow logs an
error containing the (relativized-when-possible) path and the phrase
"already exists", exits with status 1, and never invokes template selection
or any later step. -/
theorem claimC3_directoryExists_gate (env : Env) (args : WorkflowArgs)
    (hdir : jsTrim args.dir ≠ "")
    (hfs : env.fsExists (resolvePath env args.cwd (jsTrim args.dir)) = true) :
    (executeProjectCreationWorkflow env args).ctl = Ctl.exited 1 ∧
    Eff.errorLog (createDirectoryExistsMessage env (resolvePath env args.cwd (jsTrim args.dir)))
      ∈ (executeProjectCreationWorkflow env args).events ∧
    strContains (createDirectoryExistsMessage env (resolvePath env args.cwd (jsTrim args.dir)))
      (let r := relativeStr env.processCwd env.processCwd
        (resolvePath env args.cwd (jsTrim args.dir))
       if r = "" then resolvePath env args.cwd (jsTrim args.dir) else r) ∧
    strContains (createDirectoryExistsMessage env (resolvePath env args.cwd (jsTrim args.dir)))
      "already exists" ∧
    (executeProjectCreationWorkflow env args).events.filter isPostDirectoryStepCall = [] := by
  rw [workflow_trace_dirExists env args hdir hfs]
  refine ⟨rfl, by simp, ?_, ?_, ?_⟩
  · exact strContains_cyan env.colorsOn "The directory " _
      " already exists. Please choose a different directory."
  · show strContains ("The directory " ++ _ ++
      " already exists. Please choose a different directory.") "already exists"
    exact strContains_append_right _ _ _ (by decide)
  · simp [displayProjectCreationInfo, isPostDirectoryStepCall]

/-- C3 witness: `envClash` reports every path as existing; the run exits 1
without reaching template selection. -/
theorem claimC3_witness :
    (executeProjectCreationWorkflow envClash happyArgs).ctl = Ctl.exited 1 ∧
    (executeProjectCreationWorkflow envClash happyArgs).events.filter isPostDirectoryStepCall
      = [] := by
  have h := claimC3_directoryExists_gate envClash happyArgs (by decide) rfl
  exact ⟨h.1, h.2.2.2.2⟩

/-- C1 counterexample: with directory resolution and template selection
succeeding and the download collaborator throwing `Error("Template not
found")`, the workflow terminates the process with exit status 1 — it does
not return `Err(error)` as the claim states (the error is consumed by
`handleError` inside `downloadTemplateAndHandleErrors`, before the
orchestrator's try/catch could wrap it). -/
theorem claimC1_counterexample :
    (executeProjectCreationWorkflow envDownloadFail happyArgs).ctl = Ctl.exited 1 ∧
    (executeProjectCreationWorkflow envDownloadFail happyArgs).ctl ≠
      Ctl.done (Result.Err ⟨"Template not found"⟩) := by
  constructor <;> decide

/-- C1 (amended): when the download collaborator throws after directory
resolution and template selection succeed, the workflow logs the error's
display string and terminates the process with exit status 1 (rather than
returning `Err(error)`); the installation and git-initialization operations
— and their prompts — are never invoked. -/
theorem claimC1_downloadFailure (env : Env) (args : WorkflowArgs) (t : String) (e : JsError)
    (hdir : jsTrim args.dir ≠ "")
    (hfs : env.fsExists (resolvePath env args.cwd (jsTrim args.dir)) = false)
    (ht : args.template = some t) (htv : jsTrim t ≠ "")
    (hdl : env.download t (resolvePath env args.cwd (jsTrim args.dir)) = .error e) :
    (executeProjectCreationWorkflow env args).ctl = Ctl.exited 1 ∧
    Eff.errorLog e.toDisplayString ∈ (executeProjectCreationWorkflow env args).events ∧
    (executeProjectCreationWorkflow env args).events.filter isInstallOrGitCall = [] := by
  rw [workflow_trace_downloadErr env args t e hdir hfs ht htv hdl]
  refine ⟨rfl, by simp, ?_⟩
  simp [displayProjectCreationInfo, isInstallOrGitCall]

/-- C1 (amended) witness: the concrete failing download environment. -/
theorem claimC1_witness :
    (executeProjectCreationWorkflow envDownloadFail happyArgs).ctl = Ctl.exited 1 ∧
    Eff.errorLog (JsError.toDisplayString ⟨"Template not found"⟩) ∈
      (executeProjectCreationWorkflow envDownloadFail happyArgs).events ∧
    (executeProjectCreationWorkflow envDownloadFail happyArgs).events.filter isInstallOrGitCall
      = [] :=
  claimC1_downloadFailure envDownloadFail happyArgs "nuxt3" ⟨"Template not found"⟩
    (by decide) rfl rfl (by decide) rfl

/-- C2: whenever the git-init decision resolves to `true` (explicitly or via
the prompt, whose trace is `gevs`) and every prior step succeeded, a failing
git subprocess only produces a warning containing the subprocess error
message; the final instructions are still displayed and the workflow
resolves `Ok(undefined)`. -/
theorem claimC2_gitFailureIsWarning (env : Env) (args : WorkflowArgs) (t p td ts : String)
    (e : JsError) (gevs : List Eff)
    (hdir : jsTrim args.dir ≠ "")
    (hfs : env.fsExists (resolvePath env args.cwd (jsTrim args.dir)) = false)
    (ht : args.template = some t) (htv : jsTrim t ≠ "")
    (hdl : env.download t (resolvePath env args.cwd (jsTrim args.dir)) = .ok ⟨td, ts⟩)
    (hpm : args.packageManager = some p) (hp : p ∈ PACKAGE_MANAGER_OPTIONS)
    (hconf : env.promptInstallResult = .ok (.bool true))
    (hinst : env.install td p = .ok ())
    (hdec : determineGitInitialization env args.gitInit = ⟨gevs, .done (Result.Ok true)⟩)
    (hgit : env.gitInit td = .error e) :
    (executeProjectCreationWorkflow env args).ctl = Ctl.done (Result.Ok ()) ∧
    Eff.warn ("Failed to initialize git repository: " ++ e.message)
      ∈ (executeProjectCreationWorkflow env args).events ∧
    strContains ("Failed to initialize git repository: " ++ e.message) e.message ∧
    Eff.log (createFinalInstructions env.colorsOn (jsTrim args.dir) true p ts).devCommand
      ∈ (executeProjectCreationWorkflow env args).events := by
  rw [workflow_trace_gitFail env args t p td ts e gevs hdir hfs ht htv hdl hpm hp hconf
    hinst hdec hgit]
  refine ⟨rfl, by simp, strContains_right _ _, ?_⟩
  simp [displayFinalInstructions]

/-- C2 witness: the concrete failing-git environment still yields
`Ok(undefined)` and the "git not found" warning. -/
theorem claimC2_witness :
    (executeProjectCreationWorkflow envGitFail happyArgs).ctl = Ctl.done (Result.Ok ()) ∧
    Eff.warn ("Failed to initialize git repository: " ++ "git not found")
      ∈ (executeProjectCreationWorkflow envGitFail happyArgs).events := by
  have h := claimC2_gitFailureIsWarning envGitFail happyArgs "nuxt3" "npm" "/work/my-app"
    "gh:xeikit/starter-templates" ⟨"git not found"⟩ []
    (by decide) rfl rfl (by decide) rfl rfl (by decide) rfl rfl rfl rfl
  exact ⟨h.1, h.2.1⟩

/-- C10 (implicit): for either boolean value of the `install` argument the
workflow invokes the dependencies-confirmation prompt exactly once, seeded
with that value as the prompt default; the decision actually used for
installation is the prompt's answer; and — in contrast — an explicit
`gitInit` boolean means the git prompt is never invoked. -/
theorem claimC10_installPromptAlwaysRuns (env : Env) (args : WorkflowArgs)
    (t p td ts : String) (b gb : Bool)
    (hdir : jsTrim args.dir ≠ "")
    (hfs : env.fsExists (resolvePath env args.cwd (jsTrim args.dir)) = false)
    (ht : args.template = some t) (htv : jsTrim t ≠ "")
    (hdl : env.download t (resolvePath env args.cwd (jsTrim args.dir)) = .ok ⟨td, ts⟩)
    (hpm : args.packageManager = some p) (hp : p ∈ PACKAGE_MANAGER_OPTIONS)
    (hb : args.install = some b) (hg : args.gitInit = some gb) :
    (executeProjectCreationWorkflow env args).events.filter isInstallPromptEv
      = [Eff.callPromptInstall (some b)] ∧
    (∀ v, env.promptInstallResult = .ok (.bool v) →
      (Eff.callInstall td p ∈ (executeProjectCreationWorkflow env args).events ↔ v = true)) ∧
    Eff.callPromptGit ∉ (executeProjectCreationWorkflow env args).events := by
  unfold executeProjectCreationWorkflow
  rw [getProjectDirectory_arg env args.dir hdir, Run.bind_ret, ht, hpm, hb, hg]
  simp only [Run.bind_display]
  rw [show (createProjectConfig env args.cwd (jsTrim args.dir)).templateDownloadPath =
      resolvePath env args.cwd (jsTrim args.dir) from rfl]
  rw [verifyDirectoryDoesNotExist_free env _ hfs, Run.bind_ret,
    selectTemplate_arg env t htv, Run.bind_ret,
    downloadTemplateAndHandleErrors_ok env t _ ⟨td, ts⟩ hdl]
  simp only [Run.bind_done]
  rw [selectPackageManager_arg env p hp, Run.bind_ret]
  have hPS : strContainsB "Please specify whether to install dependencies." "Please specify"
      = true := by decide
  rcases hpi : env.promptInstallResult with e | v
  · by_cases hm : strContainsB e.message "Please specify" = true
    · simp [confirmDependenciesInstallation, promptForDependenciesInstallation, hpi, hm,
        Run.bind_done, Run.bind_exited, Run.tryCatch_exited, displayProjectCreationInfo,
        isInstallPromptEv]
    · simp [confirmDependenciesInstallation, promptForDependenciesInstallation, hpi, hm,
        Run.bind_done, Run.bind_exited, Run.tryCatch_exited, displayProjectCreationInfo,
        isInstallPromptEv]
  · rcases v with vb | s | _
    · rcases vb with _ | _
      · -- prompt answered false: installer skipped, whatever git does
        rcases hgi : env.gitInit td with e3 | u3 <;> rcases gb <;>
          simp [confirmDependenciesInstallation, promptForDependenciesInstallation,
            validateInstallationPromptResult, installDependenciesIfRequested,
            installDependenciesWithResult, handleError, initializeGitIfRequested,
            determineGitInitialization, validateGitInitParam, executeGitInit,
            displayFinalInstructions, createFinalInstructions, displayProjectCreationInfo,
            hpi, hgi, Run.bind_done, Run.bind_exited, Run.bind_ret, Run.ret,
            Run.tryCatch_done, Run.tryCatch_exited, isInstallPromptEv]
      · -- prompt answered true: installer invoked
        rcases hins : env.install td p with e2 | u2
        · simp [confirmDependenciesInstallation, promptForDependenciesInstallation,
            validateInstallationPromptResult, installDependenciesIfRequested,
            installDependenciesWithResult, handleError,
            displayProjectCreationInfo, hpi, hins, Run.bind_done, Run.bind_exited,
            Run.ret, Run.tryCatch_exited, isInstallPromptEv]
        · rcases hgi : env.gitInit td with e3 | u3 <;> rcases gb <;>
            simp [confirmDependenciesInstallation, promptForDependenciesInstallation,
              validateInstallationPromptResult, installDependenciesIfRequested,
              installDependenciesWithResult, handleError, initializeGitIfRequested,
              determineGitInitialization, validateGitInitParam, executeGitInit,
              displayFinalInstructions, createFinalInstructions, displayProjectCreationInfo,
              hpi, hins, hgi, Run.bind_done, Run.bind_exited, Run.bind_ret, Run.ret,
              Run.tryCatch_done, Run.tryCatch_exited, isInstallPromptEv]
    · simp [confirmDependenciesInstallation, promptForDependenciesInstallation,
        validateInstallationPromptResult, hpi, hPS, Run.bind_done, Run.bind_exited,
        Run.ret, Run.tryCatch_exited, displayProjectCreationInfo, isInstallPromptEv]
    · simp [confirmDependenciesInstallation, promptForDependenciesInstallation,
        validateInstallationPromptResult, hpi, hPS, Run.bind_done, Run.bind_exited,
        Run.ret, Run.tryCatch_exited, displayProjectCreationInfo, isInstallPromptEv]

/-- C10 witness: with `install := some true` the prompt runs exactly once
seeded `true`, the prompt's answer drives installation, and the git prompt
never fires. -/
theorem claimC10_witness :
    (executeProjectCreationWorkflow baseEnv happyArgs).events.filter isInstallPromptEv
      = [Eff.callPromptInstall (some true)] ∧
    (Eff.callInstall "/work/my-app" "npm" ∈
      (executeProjectCreationWorkflow baseEnv happyArgs).events ↔ True) ∧
    Eff.callPromptGit ∉ (executeProjectCreationWorkflow baseEnv happyArgs).events := by
  have h := claimC10_installPromptAlwaysRuns baseEnv happyArgs "nuxt3" "npm" "/work/my-app"
    "gh:xeikit/starter-templates" true true
    (by decide) rfl rfl (by decide) rfl rfl (by decide) rfl rfl
  refine ⟨h.1, ?_, h.2.2⟩
  rw [h.2.1 true rfl]
  simp
